import Mathlib

/-!
NNoM core header (`inc/nnom.h`): a shallow embedding

The header declares the status codes, the layer and activation tags with their
name tables, the buffer tags, the tensor shape with its axis view, the layer
graph records and the null-argument guard.  Pointers are embedded as optional
indices, `uintN_t` fields as naturals reduced modulo `2 ^ N` on every store.

Part I holds the definitions, Part II the lemmas and theorems.
-/

namespace Nnom

/-! ## Part I. Definitions -/

/-! ### Status codes (`nnom_status_t`) -/

/-- Status codes of `nnom_status_t`, in declaration order. -/
inductive nnom_status_t
  | NN_SUCCESS
  | NN_ARGUMENT_ERROR
  | NN_LENGTH_ERROR
  | NN_SIZE_MISMATCH
  | NN_NANINF
  | NN_SINGULAR
  | NN_TEST_FAILURE
  | NN_NO_MEMORY
  | NN_MORE_TODO
  deriving DecidableEq, Repr

open nnom_status_t

/-- Integer value the header assigns to each status code. -/
def nnom_status_t.toInt : nnom_status_t → Int
  | NN_SUCCESS => 0
  | NN_ARGUMENT_ERROR => -1
  | NN_LENGTH_ERROR => -2
  | NN_SIZE_MISMATCH => -3
  | NN_NANINF => -4
  | NN_SINGULAR => -5
  | NN_TEST_FAILURE => -6
  | NN_NO_MEMORY => -7
  | NN_MORE_TODO => -8

/-- C identifier of each status code. -/
def nnom_status_t.ident : nnom_status_t → String
  | NN_SUCCESS => "NN_SUCCESS"
  | NN_ARGUMENT_ERROR => "NN_ARGUMENT_ERROR"
  | NN_LENGTH_ERROR => "NN_LENGTH_ERROR"
  | NN_SIZE_MISMATCH => "NN_SIZE_MISMATCH"
  | NN_NANINF => "NN_NANINF"
  | NN_SINGULAR => "NN_SINGULAR"
  | NN_TEST_FAILURE => "NN_TEST_FAILURE"
  | NN_NO_MEMORY => "NN_NO_MEMORY"
  | NN_MORE_TODO => "NN_MORE_TODO"

/-- All members of `nnom_status_t`, in declaration order. -/
def nnom_status_t.all : List nnom_status_t :=
  [NN_SUCCESS, NN_ARGUMENT_ERROR, NN_LENGTH_ERROR, NN_SIZE_MISMATCH, NN_NANINF,
   NN_SINGULAR, NN_TEST_FAILURE, NN_NO_MEMORY, NN_MORE_TODO]

/-- Comparison key of a name: its letters and digits, lower-cased (underscores,
blanks and other separators are dropped). -/
def name_key (cs : List Char) : List Char :=
  (cs.filter fun c => c.isAlphanum).map Char.toLower

/-- Comparison key of a status code: its identifier without the `NN_` lead. -/
def nnom_status_t.key (s : nnom_status_t) : List Char :=
  name_key (s.ident.toList.drop 3)

/-- Failure classes of the error taxonomy that carry the name of a kind of
error, spelled as the specification spells them (section 7), in its order. -/
def spec_named_classes : List String :=
  ["ArgumentError", "LengthError", "SizeMismatch", "NaNInf", "NoMemory"]

/-- The residual failure class of the taxonomy: "generic failure
(kernel-reported fault)". -/
def spec_generic_class : String := "generic failure"

/-- All classes of the taxonomy: success and the six failure classes. -/
def spec_taxonomy : List String :=
  "success" :: (spec_named_classes ++ [spec_generic_class])

/-- Class of the taxonomy a status code falls in.  Success is the value 0; a
failure is a negative value, in the named class whose name the code bears if
there is one and in the residual class "generic failure" otherwise; a
positive value would be in no class. -/
def taxonomy_class (s : nnom_status_t) : Option String :=
  if s.toInt = 0 then some "success"
  else if s.toInt < 0 then
    match spec_named_classes.find? fun c => name_key c.toList == s.key with
    | some c => some c
    | none => some spec_generic_class
  else none

/-! ### Layer and activation tags with their name tables -/

/-- Layer tags of `nnom_layer_type_t`, in declaration order. -/
inductive nnom_layer_type_t
  | NNOM_INVALID
  | NNOM_INPUT
  | NNOM_OUTPUT
  | NNOM_CONV_2D
  | NNOM_DW_CONV_2D
  | NNOM_DENSE
  | NNOM_RNN
  | NNOM_ACTIVATION
  | NNOM_RELU
  | NNOM_SIGMOID
  | NNOM_TANH
  | NNOM_SOFTMAX
  | NNOM_MAXPOOL
  | NNOM_AVGPOOL
  | NNOM_FLATTEN
  | NNOM_LAMBDA
  | NNOM_CONCAT
  | NNOM_ADD
  | NNOM_SUB
  | NNOM_MULT
  deriving DecidableEq, Repr

open nnom_layer_type_t

/-- Enumerator value of each layer tag: `NNOM_INVALID = 0`, every later tag
one more than the tag before it. -/
def nnom_layer_type_t.toNat : nnom_layer_type_t → Nat
  | NNOM_INVALID => 0
  | NNOM_INPUT => 1
  | NNOM_OUTPUT => 2
  | NNOM_CONV_2D => 3
  | NNOM_DW_CONV_2D => 4
  | NNOM_DENSE => 5
  | NNOM_RNN => 6
  | NNOM_ACTIVATION => 7
  | NNOM_RELU => 8
  | NNOM_SIGMOID => 9
  | NNOM_TANH => 10
  | NNOM_SOFTMAX => 11
  | NNOM_MAXPOOL => 12
  | NNOM_AVGPOOL => 13
  | NNOM_FLATTEN => 14
  | NNOM_LAMBDA => 15
  | NNOM_CONCAT => 16
  | NNOM_ADD => 17
  | NNOM_SUB => 18
  | NNOM_MULT => 19

/-- C identifier of each layer tag. -/
def nnom_layer_type_t.ident : nnom_layer_type_t → String
  | NNOM_INVALID => "NNOM_INVALID"
  | NNOM_INPUT => "NNOM_INPUT"
  | NNOM_OUTPUT => "NNOM_OUTPUT"
  | NNOM_CONV_2D => "NNOM_CONV_2D"
  | NNOM_DW_CONV_2D => "NNOM_DW_CONV_2D"
  | NNOM_DENSE => "NNOM_DENSE"
  | NNOM_RNN => "NNOM_RNN"
  | NNOM_ACTIVATION => "NNOM_ACTIVATION"
  | NNOM_RELU => "NNOM_RELU"
  | NNOM_SIGMOID => "NNOM_SIGMOID"
  | NNOM_TANH => "NNOM_TANH"
  | NNOM_SOFTMAX => "NNOM_SOFTMAX"
  | NNOM_MAXPOOL => "NNOM_MAXPOOL"
  | NNOM_AVGPOOL => "NNOM_AVGPOOL"
  | NNOM_FLATTEN => "NNOM_FLATTEN"
  | NNOM_LAMBDA => "NNOM_LAMBDA"
  | NNOM_CONCAT => "NNOM_CONCAT"
  | NNOM_ADD => "NNOM_ADD"
  | NNOM_SUB => "NNOM_SUB"
  | NNOM_MULT => "NNOM_MULT"

/-- All layer tags, in declaration order. -/
def nnom_layer_type_t.all : List nnom_layer_type_t :=
  [NNOM_INVALID, NNOM_INPUT, NNOM_OUTPUT, NNOM_CONV_2D, NNOM_DW_CONV_2D, NNOM_DENSE,
   NNOM_RNN, NNOM_ACTIVATION, NNOM_RELU, NNOM_SIGMOID, NNOM_TANH, NNOM_SOFTMAX,
   NNOM_MAXPOOL, NNOM_AVGPOOL, NNOM_FLATTEN, NNOM_LAMBDA, NNOM_CONCAT, NNOM_ADD,
   NNOM_SUB, NNOM_MULT]

/-- Tag stored as the integer `n`, if there is one. -/
def nnom_layer_type_t.ofTag (n : Nat) : Option nnom_layer_type_t :=
  nnom_layer_type_t.all.find? fun t => t.toNat == n

/-- Comparison key of a layer tag: its identifier without the `NNOM_` lead. -/
def nnom_layer_type_t.key (t : nnom_layer_type_t) : List Char :=
  name_key (t.ident.toList.drop 5)

/-- Initialiser `DEFUALT_LAYER_NAMES` of the layer name table. -/
def DEFUALT_LAYER_NAMES : List String :=
  ["invalid", "input", "output", "conv2d", "dw_conv2d", "dense", "rnn", "activation",
   "relu", "sigmoid", "tanh", "softmax", "maxpool", "avgpool", "flatten", "lambda",
   "concat", "add", "sub", "mult"]

/-- Row width of `default_layer_names[][12]`. -/
def default_layer_names_width : Nat := 12

/-- Activation tags of `nnom_activation_type_t`, in declaration order. -/
inductive nnom_activation_type_t
  | ACT_RELU
  | ACT_TANH
  | ACT_SIGMOID
  deriving DecidableEq, Repr

open nnom_activation_type_t

/-- Enumerator value of each activation tag: `ACT_RELU = 0`, then one more each. -/
def nnom_activation_type_t.toNat : nnom_activation_type_t → Nat
  | ACT_RELU => 0
  | ACT_TANH => 1
  | ACT_SIGMOID => 2

/-- C identifier of each activation tag. -/
def nnom_activation_type_t.ident : nnom_activation_type_t → String
  | ACT_RELU => "ACT_RELU"
  | ACT_TANH => "ACT_TANH"
  | ACT_SIGMOID => "ACT_SIGMOID"

/-- All activation tags, in declaration order. -/
def nnom_activation_type_t.all : List nnom_activation_type_t :=
  [ACT_RELU, ACT_TANH, ACT_SIGMOID]

/-- Activation tag stored as the integer `n`, if there is one. -/
def nnom_activation_type_t.ofTag (n : Nat) : Option nnom_activation_type_t :=
  nnom_activation_type_t.all.find? fun a => a.toNat == n

/-- Comparison key of an activation tag: its identifier without the `ACT_` lead. -/
def nnom_activation_type_t.key (a : nnom_activation_type_t) : List Char :=
  name_key (a.ident.toList.drop 4)

/-- Initialiser `ACTIVATION_NAMES` of the activation name table. -/
def ACTIVATION_NAMES : List String := ["relu", "tanh", "sigmoid"]

/-- Row width of `default_activation_names[][8]`. -/
def default_activation_names_width : Nat := 8

/-- Bytes a C string literal takes in a `char` row: its characters and the
terminating zero byte. -/
def c_string_size (s : String) : Nat := s.utf8ByteSize + 1

/-! ### Buffer tags -/

/-- Buffer role `LAYER_BUF_NULL`. -/
def LAYER_BUF_NULL : Nat := 0
/-- Buffer role `LAYER_BUF_TEMP`. -/
def LAYER_BUF_TEMP : Nat := 1
/-- Buffer role `LAYER_BUF_RESERVED`. -/
def LAYER_BUF_RESERVED : Nat := 2
/-- Block fill state `NNOM_BUF_EMPTY`. -/
def NNOM_BUF_EMPTY : Nat := 0
/-- Block fill state `NNOM_BUF_FILLED`. -/
def NNOM_BUF_FILLED : Nat := 1

/-! ### Byte memory -/

/-- Little-endian load of `width` bytes at address `off` of a byte memory. -/
def load_le (mem : Nat → Nat) (off : Nat) : Nat → Nat
  | 0 => 0
  | width + 1 => mem off % 256 + 256 * load_le mem (off + 1) width

/-- Little-endian store of the low `width` bytes of `v` at address `off`. -/
def store_le (mem : Nat → Nat) (off : Nat) (v : Nat) : Nat → Nat → Nat
  | 0 => mem
  | width + 1 => fun a => if a = off then v % 256 else store_le mem (off + 1) (v / 256) width a

/-- Modelled from the spec: the body of `nnom_mem` is not in the header, which
declares it under the comment "memory (malloc + memeset 0)"; the arena service
"allocate-zeroed(size)" returns a block of `size` zero bytes. -/
def nnom_mem (size : Nat) : List Nat := List.replicate size 0

/-- Byte memory view of an allocated block. -/
def block_bytes (blk : List Nat) : Nat → Nat := fun a => blk.getD a 0

/-! ### Tensor shape and its axis view -/

/-- Size in bytes of `nnom_shape_data_t`, which is `uint16_t`. -/
def sizeof_nnom_shape_data_t : Nat := 2

/-- Shape `nnom_shape_t`: three `nnom_shape_data_t` members `h, w, c`. -/
structure nnom_shape_t where
  h : Nat
  w : Nat
  c : Nat
  deriving DecidableEq, Repr

/-- Byte offset of member `h`: the first member sits at the start. -/
def offsetof_h : Nat := 0
/-- Byte offset of member `w`: directly after `h` (same type, no padding). -/
def offsetof_w : Nat := offsetof_h + sizeof_nnom_shape_data_t
/-- Byte offset of member `c`: directly after `w`. -/
def offsetof_c : Nat := offsetof_w + sizeof_nnom_shape_data_t
/-- Size in bytes of `nnom_shape_t`. -/
def sizeof_nnom_shape_t : Nat := offsetof_c + sizeof_nnom_shape_data_t

/-- Number of elements of the member `axis` of `nnom_shape_axis_t`:
`sizeof(nnom_shape_t) / sizeof(nnom_shape_data_t)`. -/
def axis_len : Nat := sizeof_nnom_shape_t / sizeof_nnom_shape_data_t

/-- Union `nnom_shape_axis_t`: one storage that both members `s` and `axis`
start at. -/
structure nnom_shape_axis_t where
  mem : Nat → Nat

/-- Read of the member `u.s`. -/
def nnom_shape_axis_t.s (u : nnom_shape_axis_t) : nnom_shape_t :=
  { h := load_le u.mem offsetof_h sizeof_nnom_shape_data_t
    w := load_le u.mem offsetof_w sizeof_nnom_shape_data_t
    c := load_le u.mem offsetof_c sizeof_nnom_shape_data_t }

/-- Read of `u.axis[i]`. -/
def nnom_shape_axis_t.axis (u : nnom_shape_axis_t) (i : Nat) : Nat :=
  load_le u.mem (i * sizeof_nnom_shape_data_t) sizeof_nnom_shape_data_t

/-- Assignment `u.s = s`. -/
def nnom_shape_axis_t.set_s (u : nnom_shape_axis_t) (s : nnom_shape_t) : nnom_shape_axis_t :=
  { mem := store_le (store_le (store_le u.mem offsetof_h s.h sizeof_nnom_shape_data_t)
      offsetof_w s.w sizeof_nnom_shape_data_t) offsetof_c s.c sizeof_nnom_shape_data_t }

/-- Assignment `u.axis[i] = v`. -/
def nnom_shape_axis_t.set_axis (u : nnom_shape_axis_t) (i v : Nat) : nnom_shape_axis_t :=
  { mem := store_le u.mem (i * sizeof_nnom_shape_data_t) v sizeof_nnom_shape_data_t }

/-- Assignment of a whole axis array `u.axis[i] = a[i]` for `i = 0, 1, 2`. -/
def nnom_shape_axis_t.set_axes (u : nnom_shape_axis_t) (a : List Nat) : nnom_shape_axis_t :=
  ((u.set_axis 0 (a.getD 0 0)).set_axis 1 (a.getD 1 0)).set_axis 2 (a.getD 2 0)

/-- The axis array read as a list `[axis[0], axis[1], axis[2]]`. -/
def nnom_shape_axis_t.axes (u : nnom_shape_axis_t) : List Nat :=
  (List.range axis_len).map u.axis

/-- Named field that `axis[i]` corresponds to, replaced by `v`. -/
def nnom_shape_t.update (s : nnom_shape_t) (i v : Nat) : nnom_shape_t :=
  match i with
  | 0 => { s with h := v }
  | 1 => { s with w := v }
  | 2 => { s with c := v }
  | _ => s

/-- Storage with every byte zero. -/
def zero_union : nnom_shape_axis_t := { mem := fun _ => 0 }

/-! ### Null-argument guard -/

/-- Guard `NNOM_NULL_CHECK(p)`: when `p` is null it logs and makes the enclosing
function return `NN_ARGUMENT_ERROR` (the second component is the value
returned); otherwise nothing happens and nothing is returned.  `LOG` comes
from the port header and is taken as a parameter acting on the log sink. -/
def NNOM_NULL_CHECK {σ α : Type} (LOG : String → σ → σ) (p : Option α) (st : σ) :
    σ × Option nnom_status_t :=
  match p with
  | none => (LOG "Error: NULL object.\n" st, some NN_ARGUMENT_ERROR)
  | some _ => (st, none)

/-- Function whose body starts with `NNOM_NULL_CHECK(p)` and continues with `body`. -/
def null_checked {σ α : Type} (LOG : String → σ → σ) (p : Option α)
    (body : σ → σ × nnom_status_t) (st : σ) : σ × nnom_status_t :=
  match NNOM_NULL_CHECK LOG p st with
  | (st1, some e) => (st1, e)
  | (st1, none) => body st1

/-- Value a shape takes once stored in its `uint16_t` members. -/
def nnom_shape_t.wrap (s : nnom_shape_t) : nnom_shape_t :=
  { h := s.h % 2 ^ 16, w := s.w % 2 ^ 16, c := s.c % 2 ^ 16 }

/-! ### Layer graph and model -/

/-- C1: the layer name table has 20 entries, as many as the enumeration has
tags (the tags take the values 0..19 in declaration order), and the entry at
each tag's value is that tag's name in lower case: it agrees with the tag's
identifier after the `NNOM_` lead up to case and underscores, and every entry
is lower case; in particular `NNOM_INVALID` is "invalid", `NNOM_INPUT` is
"input", `NNOM_DW_CONV_2D` is "dw_conv2d", `NNOM_DENSE` is "dense" and
`NNOM_MULT` is "mult". -/
theorem layer_names_lockstep :
    DEFUALT_LAYER_NAMES.length = 20 ∧
    nnom_layer_type_t.all.length = DEFUALT_LAYER_NAMES.length ∧
    nnom_layer_type_t.all.map nnom_layer_type_t.toNat = List.range 20 ∧
    (∀ t : nnom_layer_type_t, nnom_layer_type_t.all.get? t.toNat = some t) ∧
    (∀ t : nnom_layer_type_t,
      (DEFUALT_LAYER_NAMES.get? t.toNat).map (fun n => name_key n.toList) = some t.key ∧
      (DEFUALT_LAYER_NAMES.get? t.toNat).map (fun n => n.toList.map Char.toLower)
        = (DEFUALT_LAYER_NAMES.get? t.toNat).map String.toList) ∧
    DEFUALT_LAYER_NAMES.get? NNOM_INVALID.toNat = some "invalid" ∧
    DEFUALT_LAYER_NAMES.get? NNOM_INPUT.toNat = some "input" ∧
    DEFUALT_LAYER_NAMES.get? NNOM_DW_CONV_2D.toNat = some "dw_conv2d" ∧
    DEFUALT_LAYER_NAMES.get? NNOM_DENSE.toNat = some "dense" ∧
    DEFUALT_LAYER_NAMES.get? NNOM_MULT.toNat = some "mult" := by
  refine ⟨by decide, by decide, by decide, ?_, ?_, by decide, by decide, by decide,
    by decide, by decide⟩
  · intro t
    cases t <;> decide
  · intro t
    cases t <;> decide

/-- C3: the activation name table has 3 entries, as many as the enumeration
has tags (values 0..2 in declaration order), and the entry at each tag's value
is that tag's name: `ACT_RELU` is "relu", `ACT_TANH` is "tanh", `ACT_SIGMOID`
is "sigmoid". -/
theorem activation_names_lockstep :
    ACTIVATION_NAMES.length = 3 ∧
    nnom_activation_type_t.all.length = ACTIVATION_NAMES.length ∧
    nnom_activation_type_t.all.map nnom_activation_type_t.toNat = List.range 3 ∧
    (∀ a : nnom_activation_type_t, nnom_activation_type_t.all.get? a.toNat = some a) ∧
    (∀ a : nnom_activation_type_t,
      (ACTIVATION_NAMES.get? a.toNat).map (fun n => name_key n.toList) = some a.key) ∧
    ACTIVATION_NAMES.get? ACT_RELU.toNat = some "relu" ∧
    ACTIVATION_NAMES.get? ACT_TANH.toNat = some "tanh" ∧
    ACTIVATION_NAMES.get? ACT_SIGMOID.toNat = some "sigmoid" := by
  refine ⟨by decide, by decide, by decide, ?_, ?_, by decide, by decide, by decide⟩
  · intro a
    cases a <;> decide
  · intro a
    cases a <;> decide

/-- C4: every member of the status type is in the taxonomy: it is success
(value 0) or a failure (negative value) in one of the classes ArgumentError,
LengthError, SizeMismatch, NaNInf, NoMemory or generic failure; so is every
value an operation returns, whatever the operation and its argument.  The
five named classes hold the code that bears their name, and the residual
class generic failure holds `NN_SINGULAR`, `NN_TEST_FAILURE` and
`NN_MORE_TODO`. -/
theorem status_in_taxonomy :
    (∀ s : nnom_status_t, s ∈ nnom_status_t.all) ∧
    (∀ s : nnom_status_t, ∃ c, taxonomy_class s = some c ∧ c ∈ spec_taxonomy) ∧
    (∀ s : nnom_status_t, taxonomy_class s = some "success" ↔ s = NN_SUCCESS) ∧
    (∀ s : nnom_status_t, s = NN_SUCCESS ∨
      ∃ c, taxonomy_class s = some c ∧ c ∈ spec_named_classes ++ [spec_generic_class]) ∧
    (∀ (σ : Type) (op : σ → nnom_status_t) (x : σ),
      ∃ c, taxonomy_class (op x) = some c ∧ c ∈ spec_taxonomy) ∧
    nnom_status_t.all.map taxonomy_class
      = [some "success", some "ArgumentError", some "LengthError", some "SizeMismatch",
         some "NaNInf", some "generic failure", some "generic failure", some "NoMemory",
         some "generic failure"] := by
  have hall : ∀ s : nnom_status_t, ∃ c, taxonomy_class s = some c ∧ c ∈ spec_taxonomy := by
    intro s
    cases s
    · exact ⟨"success", by decide, by decide⟩
    · exact ⟨"ArgumentError", by decide, by decide⟩
    · exact ⟨"LengthError", by decide, by decide⟩
    · exact ⟨"SizeMismatch", by decide, by decide⟩
    · exact ⟨"NaNInf", by decide, by decide⟩
    · exact ⟨"generic failure", by decide, by decide⟩
    · exact ⟨"generic failure", by decide, by decide⟩
    · exact ⟨"NoMemory", by decide, by decide⟩
    · exact ⟨"generic failure", by decide, by decide⟩
  refine ⟨?_, hall, ?_, ?_, fun _ op x => hall (op x), by decide⟩
  · intro s
    cases s <;> decide
  · intro s
    cases s <;> decide
  · intro s
    cases s
    · exact Or.inl rfl
    · exact Or.inr ⟨"ArgumentError", by decide, by decide⟩
    · exact Or.inr ⟨"LengthError", by decide, by decide⟩
    · exact Or.inr ⟨"SizeMismatch", by decide, by decide⟩
    · exact Or.inr ⟨"NaNInf", by decide, by decide⟩
    · exact Or.inr ⟨"generic failure", by decide, by decide⟩
    · exact Or.inr ⟨"generic failure", by decide, by decide⟩
    · exact Or.inr ⟨"NoMemory", by decide, by decide⟩
    · exact Or.inr ⟨"generic failure", by decide, by decide⟩

/-- C8: `NN_SUCCESS` is 0, every other status code is strictly negative, the
nine codes are exactly 0, -1, ..., -8 in declaration order (so pairwise
distinct), and a status is success iff its value is 0 iff its value is
non-negative. -/
theorem status_sign :
    NN_SUCCESS.toInt = 0 ∧
    (∀ s : nnom_status_t, s = NN_SUCCESS ∨ s.toInt < 0) ∧
    nnom_status_t.all.map nnom_status_t.toInt = [0, -1, -2, -3, -4, -5, -6, -7, -8] ∧
    (nnom_status_t.all.map nnom_status_t.toInt).Nodup ∧
    (∀ s : nnom_status_t, s ∈ nnom_status_t.all) ∧
    (∀ s t : nnom_status_t, s.toInt = t.toInt ↔ s = t) ∧
    (∀ s : nnom_status_t, (s = NN_SUCCESS ↔ s.toInt = 0) ∧ (s.toInt = 0 ↔ 0 ≤ s.toInt)) := by
  refine ⟨rfl, ?_, by decide, by decide, ?_, ?_, ?_⟩
  · intro s
    cases s <;> decide
  · intro s
    cases s <;> decide
  · intro s t
    cases s <;> cases t <;> decide
  · intro s
    cases s <;> decide

/-- C9: each of the 20 layer names has at most 11 characters, so with its
terminating zero byte it fits a row of 12; each of the 3 activation names has
at most 7 characters, so with its terminating zero byte it fits a row of 8. -/
theorem names_fit_rows :
    DEFUALT_LAYER_NAMES.length = 20 ∧ ACTIVATION_NAMES.length = 3 ∧
    (∀ i : Fin DEFUALT_LAYER_NAMES.length,
      (DEFUALT_LAYER_NAMES.get i).length ≤ 11 ∧
      c_string_size (DEFUALT_LAYER_NAMES.get i) ≤ default_layer_names_width) ∧
    (∀ i : Fin ACTIVATION_NAMES.length,
      (ACTIVATION_NAMES.get i).length ≤ 7 ∧
      c_string_size (ACTIVATION_NAMES.get i) ≤ default_activation_names_width) := by
  refine ⟨by decide, by decide, by decide, by decide⟩

/-- C10 (counterexample): the activation tag has no "nothing" value: its
value 0 is `ACT_RELU`, the rectifier, which the activation name table calls
"relu"; so the tag field of a zero-filled record from `nnom_mem` (here the 4
bytes at offset 24 of a block of 32) reads as a real activation, whereas the
layer tag at value 0 is called "invalid". -/
theorem activation_tag_zero_is_relu :
    ACT_RELU.toNat = 0 ∧ nnom_activation_type_t.ofTag 0 = some ACT_RELU ∧
    ACTIVATION_NAMES.get? ACT_RELU.toNat = some "relu" ∧
    DEFUALT_LAYER_NAMES.get? 0 = some "invalid" ∧
    nnom_activation_type_t.ofTag (load_le (block_bytes (nnom_mem 32)) 24 4) = some ACT_RELU := by
  decide

/-- C10 (amended): value 0 is the "nothing" value of the layer type, buffer
role and fill state tags (layer type 0 is `NNOM_INVALID`, buffer role 0 is
`LAYER_BUF_NULL`, fill state 0 is `NNOM_BUF_EMPTY`); every field of any width
read anywhere in a block that `nnom_mem` returned is 0, so its layer type
reads `NNOM_INVALID`, its buffer role `LAYER_BUF_NULL` and its fill state
`NNOM_BUF_EMPTY`; the three buffer roles are pairwise distinct and so are the
two fill states; the activation tag has no such value, its value 0 being
`ACT_RELU`. -/
theorem zero_tags_are_empty :
    NNOM_INVALID.toNat = 0 ∧ nnom_layer_type_t.ofTag 0 = some NNOM_INVALID ∧
    LAYER_BUF_NULL = 0 ∧ NNOM_BUF_EMPTY = 0 ∧
    (∀ size off width : Nat,
      load_le (block_bytes (nnom_mem size)) off width = 0 ∧
      nnom_layer_type_t.ofTag (load_le (block_bytes (nnom_mem size)) off width)
        = some NNOM_INVALID ∧
      load_le (block_bytes (nnom_mem size)) off width = LAYER_BUF_NULL ∧
      load_le (block_bytes (nnom_mem size)) off width = NNOM_BUF_EMPTY) ∧
    LAYER_BUF_NULL ≠ LAYER_BUF_TEMP ∧ LAYER_BUF_NULL ≠ LAYER_BUF_RESERVED ∧
    LAYER_BUF_TEMP ≠ LAYER_BUF_RESERVED ∧ NNOM_BUF_EMPTY ≠ NNOM_BUF_FILLED ∧
    nnom_activation_type_t.ofTag 0 = some ACT_RELU := by
  have hz : ∀ size off width : Nat, load_le (block_bytes (nnom_mem size)) off width = 0 := by
    intro size off width
    induction width generalizing off with
    | zero => rfl
    | succ k ih =>
      have hb : block_bytes (nnom_mem size) off = 0 := by
        unfold block_bytes nnom_mem
        by_cases h : off < size
        · simp [List.getD_eq_getElem?_getD, List.getElem?_replicate, h]
        · simp [List.getD_eq_getElem?_getD, List.getElem?_replicate, h]
      simp [load_le, hb, ih]
  refine ⟨rfl, by decide, rfl, rfl, ?_, by decide, by decide, by decide, by decide, by decide⟩
  intro size off width
  rw [hz]
  exact ⟨rfl, by decide, rfl, rfl⟩

/-! ### Null-argument guard -/

/-- C7: the guard returns `NN_ARGUMENT_ERROR` exactly when its argument is
null and returns nothing exactly when it is not; a function guarded by it
returns `NN_ARGUMENT_ERROR` at the guard (after the log line) for a null
argument, and for a non-null argument runs the code after the guard on the
unchanged state. -/
theorem null_check_guard {σ α : Type} (LOG : String → σ → σ) (p : Option α)
    (body : σ → σ × nnom_status_t) (st : σ) :
    ((NNOM_NULL_CHECK LOG p st).2 = some NN_ARGUMENT_ERROR ↔ p = none) ∧
    ((NNOM_NULL_CHECK LOG p st).2 = none ↔ p ≠ none) ∧
    null_checked LOG p body st =
      (match p with
       | none => (LOG "Error: NULL object.\n" st, NN_ARGUMENT_ERROR)
       | some _ => body st) := by
  cases p <;> simp [NNOM_NULL_CHECK, null_checked]

/-! ### Tensor shape: the two views of the union -/

theorem load_le_two (mem : Nat → Nat) (off : Nat) :
    load_le mem off 2 = mem off % 256 + 256 * (mem (off + 1) % 256) := by
  simp [load_le]

theorem store_le_two (mem : Nat → Nat) (off v a : Nat) :
    store_le mem off v 2 a
      = if a = off then v % 256 else if a = off + 1 then v / 256 % 256 else mem a := by
  simp [store_le]

/-- C2: the axis view has exactly 3 elements; in every state of the union
`axis[0]`, `axis[1]`, `axis[2]` read the same storage as `s.h`, `s.w`, `s.c`;
after storing a shape through `s` the axis view reads its three values, and
storing `axis[i]` replaces exactly the corresponding named field and leaves
the other two unchanged; carrying a shape from the named fields to the axis
array and back, or an axis array to the named fields and back, returns it
(values being those of `uint16_t` members). -/
theorem shape_axis_views_alias :
    axis_len = 3 ∧
    (∀ u : nnom_shape_axis_t, u.axis 0 = u.s.h ∧ u.axis 1 = u.s.w ∧ u.axis 2 = u.s.c) ∧
    (∀ (u : nnom_shape_axis_t) (s : nnom_shape_t),
      (u.set_s s).s = s.wrap ∧ (u.set_s s).axes = [s.wrap.h, s.wrap.w, s.wrap.c]) ∧
    (∀ (u : nnom_shape_axis_t) (i : Fin axis_len) (v : Nat),
      (u.set_axis i v).s = u.s.update i (v % 2 ^ 16)) ∧
    (∀ (u t : nnom_shape_axis_t) (s : nnom_shape_t),
      (t.set_axes (u.set_s s).axes).s = s.wrap) ∧
    (∀ (u t : nnom_shape_axis_t) (a b c : Nat),
      (t.set_s (u.set_axes [a, b, c]).s).axes = [a % 2 ^ 16, b % 2 ^ 16, c % 2 ^ 16]) := by
  have hs : ∀ (u : nnom_shape_axis_t) (s : nnom_shape_t), (u.set_s s).s = s.wrap := by
    intro u s
    simp only [nnom_shape_axis_t.s, nnom_shape_axis_t.set_s, nnom_shape_t.wrap,
      offsetof_h, offsetof_w, offsetof_c, sizeof_nnom_shape_data_t, load_le_two, store_le_two]
    simp
    refine ⟨?_, ?_, ?_⟩ <;> omega
  have hax : ∀ u : nnom_shape_axis_t, u.axes = [u.s.h, u.s.w, u.s.c] := by
    intro u
    simp [nnom_shape_axis_t.axes, nnom_shape_axis_t.axis, nnom_shape_axis_t.s, axis_len,
      sizeof_nnom_shape_t, offsetof_h, offsetof_w, offsetof_c, sizeof_nnom_shape_data_t,
      List.range_succ]
  have hset : ∀ (u : nnom_shape_axis_t) (i : Fin axis_len) (v : Nat),
      (u.set_axis i v).s = u.s.update i (v % 2 ^ 16) := by
    intro u i v
    have hi : (i : Nat) < 3 := i.isLt
    have h3 : (i : Nat) = 0 ∨ (i : Nat) = 1 ∨ (i : Nat) = 2 := by omega
    rcases h3 with h | h | h <;> rw [h] <;>
      simp only [nnom_shape_axis_t.s, nnom_shape_axis_t.set_axis, nnom_shape_t.update,
        offsetof_h, offsetof_w, offsetof_c, sizeof_nnom_shape_data_t, load_le_two,
        store_le_two] <;> simp <;> omega
  have hsetaxes : ∀ (t : nnom_shape_axis_t) (a b c : Nat),
      (t.set_axes [a, b, c]).s = { h := a % 2 ^ 16, w := b % 2 ^ 16, c := c % 2 ^ 16 } := by
    intro t a b c
    have h0 : (0 : Nat) < axis_len := by decide
    have h1 : (1 : Nat) < axis_len := by decide
    have h2 : (2 : Nat) < axis_len := by decide
    have e0 := hset t ⟨0, h0⟩ a
    have e1 := hset (t.set_axis 0 a) ⟨1, h1⟩ b
    have e2 := hset ((t.set_axis 0 a).set_axis 1 b) ⟨2, h2⟩ c
    simp only [nnom_shape_axis_t.set_axes, List.getD_cons_zero, List.getD_cons_succ]
    simp only at e0 e1 e2
    rw [e2, e1, e0]
    simp [nnom_shape_t.update]
  refine ⟨by decide, ?_, ?_, hset, ?_, ?_⟩
  · intro u
    simp [nnom_shape_axis_t.axis, nnom_shape_axis_t.s, offsetof_h, offsetof_w, offsetof_c,
      sizeof_nnom_shape_data_t]
  · intro u s
    exact ⟨hs u s, by rw [hax, hs]⟩
  · intro u t s
    rw [hax, hs, hsetaxes]
    simp [nnom_shape_t.wrap]
  · intro u t a b c
    rw [hax, hs, hsetaxes]
    simp [nnom_shape_t.wrap]

/-! ### Compilation: the traversal and its invariant -/

end Nnom
